import Mathlib

/-!
Shallow embedding of the voice-interview assistant repository:
the scoring proxy (`src/app/api/score-interview/route.ts`, appended to
`src/unnamed/part_000`) and the two client-side session-controller variants
(`src/unnamed/part_000` with a call-id ref, `src/unnamed/part_001` with a
client-side message buffer; `src/app/page.tsx` duplicates the start/mute
handlers of the part_000 variant verbatim).

JavaScript strings are modelled as `String`, absent/null values as `Option`,
and JS truthiness of a string value by `jsTruthy` (empty string is falsy).
Network effects are modelled by oracle parameters (what the upstream
responses are) plus explicit records of which upstream calls were issued.
-/

/-! ## JavaScript-semantics helpers -/

/-- JS `a || b` on strings: the empty string is falsy. -/
def jsOrStr (a b : String) : String := if a = "" then b else a

/-- JS `a || b` where `a` may be absent (`undefined`/`null`). -/
def jsOrOpt : Option String → String → String
  | some s, b => jsOrStr s b
  | none, b => b

/-- JS truthiness of a possibly-absent string value. -/
def jsTruthy : Option String → Bool
  | some s => s != ""
  | none => false

/-- JS `String.prototype.trim()`: strip whitespace from both ends.
(Defined on the character list so that it evaluates in the kernel.) -/
def jsTrim (s : String) : String :=
  ⟨((s.data.dropWhile Char.isWhitespace).reverse.dropWhile Char.isWhitespace).reverse⟩

/-- JS `Array.prototype.join("\n")`. -/
def joinLines : List String → String
  | [] => ""
  | [x] => x
  | x :: y :: ys => x ++ "\n" ++ joinLines (y :: ys)

/-- JS `s.includes(pat)` (substring containment). -/
def strContains (s pat : String) : Bool := decide (pat.data <:+: s.data)

/-! ## Scoring proxy (`POST /api/score-interview`, in part_000)

`const { callId } = await request.json()` — the handler destructures only
`callId` from the request body; any `transcript` field in the JSON body is
ignored.  The request body is modelled as the already-parsed pair of
optional string fields. -/

/-- Parsed JSON body of a scoring request. The route reads only `callId`;
`transcript` is carried to model request bodies that also (or only) supply
a transcript. -/
structure ReqBody where
  callId : Option String
  transcript : Option String
deriving DecidableEq

/-- One entry of the `messages` array returned by the Vapi call-data API.
`content` is `some s` when the field is present and is a string (the route
checks `typeof msg.content === "string"`, so a non-string field behaves
like an absent one); `sender` likewise. -/
structure VMsg where
  type : String
  content : Option String
  sender : Option String
deriving DecidableEq

/-- Outcome of `fetch("https://api.vapi.ai/call/" + callId)`:
either `response.ok` with a parsed `messages` array (`callDetails.messages
|| []` — an absent array is the empty list), or a non-success response with
its HTTP status, status text and optional `message` in the error body. -/
inductive FetchOutcome where
  | ok (messages : List VMsg)
  | notOk (status : Nat) (statusText : String) (errMessage : Option String)
deriving DecidableEq

/-- Outcome of `openai.chat.completions.create(...)`: the call either
rejects with an error message, or resolves with
`completion.choices[0].message?.content` (absent/null modelled as `none`). -/
inductive CompletionOutcome where
  | fail (msg : String)
  | ok (content : Option String)
deriving DecidableEq

/-- The JSON value returned by the route: `200 { score }` or a
`{ error }` body with its HTTP status. -/
inductive ScoreResult where
  | ok (score : String)
  | err (status : Nat) (msg : String)
deriving DecidableEq

/-- The route's observable behaviour: its response, whether the Vapi
call-data fetch was issued, and the prompt submitted to the completion API
(`none` when no completion call was made). -/
structure RouteResponse where
  result : ScoreResult
  vapiFetchCalled : Bool
  openaiPrompt : Option String
deriving DecidableEq

/-- The route's transcript filter:
`msg.type === "transcript" && msg.content && typeof msg.content === "string"
&& msg.content.trim().length > 0`. -/
def keepMsg (m : VMsg) : Bool :=
  m.type == "transcript" && jsTruthy m.content && jsTrim (m.content.getD "") != ""

/-- The route's per-entry formatting:
```${msg.sender === "user" ? "Candidate" : "Interviewer"}: ${msg.content}``` -/
def msgLine (m : VMsg) : String :=
  (if m.sender == some "user" then "Candidate" else "Interviewer") ++ ": " ++ m.content.getD ""

/-- `rawMessages.filter(...).map(...)` from the route. -/
def transcriptMessages (ms : List VMsg) : List String :=
  (ms.filter keepMsg).map msgLine

/-- `transcriptMessages.join("\n")` from the route. -/
def fullTranscript (ms : List VMsg) : String :=
  joinLines (transcriptMessages ms)

/-- The fixed text of the scoring prompt before `${fullTranscript}`. -/
def promptPre : String :=
  "\n      You are an expert interviewer and evaluator. Your task is to score an interview transcript based on two main criteria:\n      1.  **Accuracy:** How factual, correct, and well-supported the candidate\x27s answers are.\n      2.  **Confidentiality:** Whether the candidate avoided disclosing unnecessary sensitive personal or company information. If they discuss personal experience, ensure it is professional and relevant. If they mention past projects, ensure no proprietary or sensitive details are revealed.\n\n      Provide a concise score from 1 to 10 (10 being excellent) for each criterion, along with a brief explanation for each score. Finally, provide an overall recommendation or qualitative feedback.\n\n      ---\n      Interview Transcript:\n      "

/-- The fixed text of the scoring prompt after `${fullTranscript}`. -/
def promptSuf : String :=
  "\n      ---\n\n      Please format your response clearly, like this:\n      Accuracy Score (1-10): [Score]\n      Accuracy Explanation: [Explanation]\n\n      Confidentiality Score (1-10): [Score]\n      Confidentiality Explanation: [Explanation]\n\n      Overall Feedback: [Your overall assessment]\n    "

/-- `scoringPrompt` — the template literal of the route, with
`${fullTranscript}` spliced between the two fixed parts. -/
def scoringPrompt (t : String) : String := promptPre ++ t ++ promptSuf

/-- The route's `catch` block: a thrown message whose text includes
`"Failed to fetch call details from Vapi"` is passed through; any other
message is surfaced as `error.message` with the fallback text
"Internal server error during scoring."  Both branches answer HTTP 500. -/
def catchMsg (m : String) : String :=
  if strContains m "Failed to fetch call details from Vapi" then m
  else jsOrStr m "Internal server error during scoring."

/-- The `try` body of the route handler. `Except.error` models a thrown
exception; the two booleans record whether the Vapi fetch was issued and
carry the completion-API prompt when that call was issued. -/
def runPOST (body : ReqBody) (secretSet : Bool) (fetch : FetchOutcome)
    (comp : CompletionOutcome) : Except String ScoreResult × Bool × Option String :=
  if jsTruthy body.callId = false then
    (Except.ok (ScoreResult.err 400 "Call ID is required"), false, none)
  else if secretSet = false then
    (Except.ok (ScoreResult.err 500 "VAPI_SECRET_KEY is not set in environment variables."),
      false, none)
  else
    match fetch with
    | FetchOutcome.notOk _status statusText errMessage =>
        (Except.error ("Failed to fetch call details from Vapi: " ++ jsOrOpt errMessage statusText),
          true, none)
    | FetchOutcome.ok msgs =>
        if fullTranscript msgs = "" then
          (Except.ok (ScoreResult.ok "No valid transcript available from Vapi for scoring."),
            true, none)
        else
          match comp with
          | CompletionOutcome.fail m =>
              (Except.error m, true, some (scoringPrompt (fullTranscript msgs)))
          | CompletionOutcome.ok content =>
              (Except.ok (ScoreResult.ok (jsOrOpt content "Could not generate score.")),
                true, some (scoringPrompt (fullTranscript msgs)))

/-- `export async function POST(request)` of the scoring route: the `try`
body wrapped in the `catch` block. -/
def POST (body : ReqBody) (secretSet : Bool) (fetch : FetchOutcome)
    (comp : CompletionOutcome) : RouteResponse :=
  match runPOST body secretSet fetch comp with
  | (Except.ok r, f, c) => ⟨r, f, c⟩
  | (Except.error m, f, c) => ⟨ScoreResult.err 500 (catchMsg m), f, c⟩

/-! ## Session controller, variant A (`src/unnamed/part_000`)

The `VapiInterviewBot` component that stashes the call id in
`currentCallIdRef` when `vapi.start()` resolves and scores by call id at
`call-end`.  Component state (`useState` hooks plus the ref) is the record
below; `scoringCalls` records, in order, the call ids POSTed to
`/api/score-interview` by `scoreInterviewTranscript`. -/

namespace BotA

structure State where
  isCallActive : Bool
  isLoading : Bool
  status : String
  errorMessage : Option String
  volumeLevel : Int
  isMuted : Bool
  currentCallId : Option String
  interviewScore : Option String
  isScoring : Bool
  scoringCalls : List String
deriving DecidableEq

/-- The `useState` initial values (volume is an amplitude number; its exact
numeric type is irrelevant to the claims and is modelled as `Int`). -/
def init : State :=
  { isCallActive := false, isLoading := false, status := "Ready for Interview"
    errorMessage := none, volumeLevel := 0, isMuted := false, currentCallId := none
    interviewScore := none, isScoring := false, scoringCalls := [] }

/-- Events delivered to the component: the Vapi SDK lifecycle events, plus
the two halves of `handleStartCall` (its synchronous prefix, and the
continuation that runs when the `vapi.start()` promise resolves with a call
object and stores `call.id` in the ref).  An error event carries `e.message`
(possibly absent/empty) and `JSON.stringify(e)`. -/
inductive Event where
  | startRequested
  | startResolved (callId : String)
  | callStart
  | callEnd
  | speechStart
  | speechEnd
  | volumeLevel (v : Int)
  | errorEvt (emsg : Option String) (ejson : String)

/-- `handleCallEnd`: reset call state, then — `scoreInterviewTranscript`
with the ref's call id (recording the POST and entering the scoring state)
and clear the ref, or report that no call id was available. -/
def handleCallEnd (s : State) : State :=
  let s1 := { s with isCallActive := false, isLoading := false
                     status := "Interview Ended", errorMessage := none }
  match s1.currentCallId with
  | some cid =>
      { s1 with isScoring := true, interviewScore := some "Generating score..."
                scoringCalls := s1.scoringCalls ++ [cid], currentCallId := none }
  | none =>
      { s1 with interviewScore := some "No call ID available to score. (Ref was null at call end)"
                isScoring := false }

/-- The event handlers registered in the main `useEffect`. -/
def step (s : State) : Event → State
  | Event.startRequested =>
      { s with isLoading := true, errorMessage := none, status := "Initiating Interview..."
               currentCallId := none, interviewScore := none }
  | Event.startResolved cid => { s with currentCallId := some cid }
  | Event.callStart =>
      { s with isCallActive := true, isLoading := false, status := "Interview Started"
               errorMessage := none, currentCallId := none, interviewScore := none }
  | Event.callEnd => handleCallEnd s
  | Event.speechStart => { s with status := "Interviewer Speaking" }
  | Event.speechEnd => if s.isCallActive then { s with status := "Listening to Candidate..." } else s
  | Event.volumeLevel v => { s with volumeLevel := v }
  | Event.errorEvt emsg ejson =>
      { s with isLoading := false, errorMessage := some ("Vapi Error: " ++ jsOrOpt emsg ejson)
               status := "Error During Interview" }

/-- Run a sequence of events. -/
def run (s : State) (es : List Event) : State := es.foldl step s

/-- The speech/content events that can occur during an active session
(this variant attaches no `message` listener). -/
inductive Mid where
  | speechStart
  | speechEnd
  | volumeLevel (v : Int)

def Mid.toEvent : Mid → Event
  | Mid.speechStart => Event.speechStart
  | Mid.speechEnd => Event.speechEnd
  | Mid.volumeLevel v => Event.volumeLevel v

/-- One completed session: the user requests a start, the SDK reports
`call-start`, the `vapi.start()` promise resolves with the session's call
id, any number of speech/content events follow, and the session ends. -/
def sessionTrace (cid : String) (mids : List Mid) : List Event :=
  [Event.startRequested, Event.callStart, Event.startResolved cid]
    ++ mids.map Mid.toEvent ++ [Event.callEnd]

/-- A whole run: any number of completed sessions back to back, each with
its own call id and its own speech/content events. -/
def sessionsTrace (ss : List (String × List Mid)) : List Event :=
  (ss.map fun p => sessionTrace p.1 p.2).flatten

/-- `handleStartCall`: what `vapi.start(callConfig)` does when reached. -/
inductive StartResult where
  | started (callId : String)
  | nullCall
  | threw (msg : String)

/-- One full run of `handleStartCall` (part_000; `src/app/page.tsx` has the
identical microphone-permission logic).  Parameters: whether the Vapi ref is
initialised, the `assistantId` input (empty string selects the inline
configuration), the microphone-permission outcome for the inline path
(`some m` = `getUserMedia` rejected with message `m`), and what
`vapi.start` does when reached.  Returns the new component state and
whether `vapi.start` was invoked. -/
def handleStartCall (s : State) (hasVapi : Bool) (assistantId : String)
    (micError : Option String) (r : StartResult) : State × Bool :=
  if hasVapi = false then
    ({ s with errorMessage := some "Vapi not initialized. Please refresh or check public key." },
      false)
  else
    let s1 := { s with isLoading := true, errorMessage := none
                       status := "Initiating Interview..."
                       currentCallId := none, interviewScore := none }
    let startPhase : State × Bool :=
      match r with
      | StartResult.started cid => ({ s1 with currentCallId := some cid }, true)
      | StartResult.nullCall =>
          ({ s1 with errorMessage := some "Failed to start call: Vapi did not return a call object."
                     isLoading := false, status := "Ready for Interview" }, true)
      | StartResult.threw m =>
          ({ s1 with isLoading := false, status := "Ready for Interview"
                     errorMessage := some ("Failed to start interview: "
                       ++ jsOrStr m "An unknown error occurred.") }, true)
    if assistantId = "" then
      match micError with
      | some m =>
          ({ s1 with errorMessage := some ("Microphone access needed to start interview: "
                       ++ jsOrStr m "Permission denied.")
                     isLoading := false, status := "Permission Denied" }, false)
      | none => startPhase
    else startPhase

end BotA

/-! ## Mute toggle (`handleToggleMute`, identical in all three variants)

The world holds the external SDK's mute flag (`vapi.isMuted()` /
`vapi.setMuted(b)`), the component's `isMuted` state and `status`, and the
ordered log of arguments passed to the external `setMuted`. -/

structure MuteWorld where
  vapiMuted : Bool
  isMuted : Bool
  status : String
  setMutedCalls : List Bool
deriving DecidableEq

/-- `handleToggleMute`: `if (!vapiRef.current) return;` then read
`vapi.isMuted()`, call `vapi.setMuted(!currentlyMuted)` (the SDK handle now
holds the new flag), and mirror the new flag into component state. -/
def handleToggleMute (hasVapi : Bool) (w : MuteWorld) : MuteWorld :=
  if hasVapi = false then w
  else
    let currentlyMuted := w.vapiMuted
    { w with vapiMuted := !currentlyMuted
             setMutedCalls := w.setMutedCalls ++ [!currentlyMuted]
             isMuted := !currentlyMuted
             status := "Microphone: " ++ (if !currentlyMuted then "Muted" else "Unmuted") }

/-! ## Session controller, variant B (`src/unnamed/part_001`)

The `VapiInterviewBot` component that buffers `message` events in state and
sends the joined transcript to `/api/score-interview` at `call-end`. -/

namespace BotB

/-- One captured Vapi `message` event: its `type` and the fields of its
`message` payload that the component reads (`sender`, `text` for
transcripts, `name` for function calls/returns), each possibly absent. -/
structure TMsg where
  type : String
  sender : Option String
  text : Option String
  name : Option String
deriving DecidableEq

structure State where
  isCallActive : Bool
  isLoading : Bool
  status : String
  errorMessage : Option String
  volumeLevel : Int
  messages : List TMsg
  isMuted : Bool
  interviewScore : Option String
  isScoring : Bool
  proxyCalls : List String
deriving DecidableEq

/-- The `useState` initial values.  `proxyCalls` records, in order, the
transcript strings POSTed to `/api/score-interview`. -/
def init : State :=
  { isCallActive := false, isLoading := false, status := "Ready for Interview"
    errorMessage := none, volumeLevel := 0, messages := [], isMuted := false
    interviewScore := none, isScoring := false, proxyCalls := [] }

/-- The component's transcript filter and per-entry formatting:
`msg.type === "transcript" && typeof msg.message?.text === "string" &&
msg.message.text.trim().length > 0`, then
```${msg.message.sender === "user" ? "Candidate" : "Interviewer"}: ${msg.message.text}``` -/
def filteredTranscript (ms : List TMsg) : List String :=
  (ms.filter fun m => m.type == "transcript"
      && (match m.text with | some t => jsTrim t != "" | none => false)).map
    fun m => (if m.sender == some "user" then "Candidate" else "Interviewer")
      ++ ": " ++ m.text.getD ""

/-- `scoreInterviewTranscript`: enter the scoring state; if no qualifying
transcript entry exists, short-circuit with a local result and leave the
scoring state; otherwise POST the joined transcript to the proxy. -/
def scoreInterviewTranscript (s : State) : State :=
  let s1 := { s with isScoring := true, interviewScore := some "Generating score..." }
  let filtered := filteredTranscript s1.messages
  if filtered.isEmpty then
    { s1 with
        interviewScore := some "No valid transcript to score. (Possible short call or no speech detected.)",
        isScoring := false }
  else
    { s1 with proxyCalls := s1.proxyCalls ++ [joinLines filtered] }

/-- The `status` text derived by `handleMessage` from a message and the
previous status (`${...?.name}` of an absent name renders as
`"undefined"` in JS). -/
def messageStatus (m : TMsg) (prev : String) : String :=
  if m.type == "transcript" then
    (if m.sender == some "user" then "Candidate Speaking..."
     else if m.sender == some "assistant" && prev != "Interviewer Speaking" then
       "Interviewer Thinking..."
     else prev)
  else if m.type == "function-call" then "Function Call: " ++ m.name.getD "undefined"
  else if m.type == "function-return" then "Function Returned: " ++ m.name.getD "undefined"
  else prev

/-- `handleMessage`: append the message to the buffer and derive status. -/
def handleMessage (s : State) (m : TMsg) : State :=
  { s with messages := s.messages ++ [m], status := messageStatus m s.status }

/-- Events delivered to this component (it attaches a `message` listener;
`vapi.start()` resolving carries no data the component keeps). -/
inductive Event where
  | startRequested
  | callStart
  | callEnd
  | speechStart
  | speechEnd
  | volumeLevel (v : Int)
  | message (m : TMsg)
  | errorEvt (emsg : Option String) (ejson : String)

/-- The event handlers registered in the main `useEffect`; `call-end` also
triggers `scoreInterviewTranscript`. -/
def step (s : State) : Event → State
  | Event.startRequested =>
      { s with isLoading := true, errorMessage := none, status := "Initiating Interview..."
               interviewScore := none, messages := [] }
  | Event.callStart =>
      { s with isCallActive := true, isLoading := false, status := "Interview Started"
               errorMessage := none, messages := [], interviewScore := none }
  | Event.callEnd =>
      scoreInterviewTranscript
        { s with isCallActive := false, isLoading := false
                 status := "Interview Ended", errorMessage := none }
  | Event.speechStart => { s with status := "Interviewer Speaking" }
  | Event.speechEnd => if s.isCallActive then { s with status := "Listening to Candidate..." } else s
  | Event.volumeLevel v => { s with volumeLevel := v }
  | Event.message m => handleMessage s m
  | Event.errorEvt emsg ejson =>
      { s with isLoading := false, errorMessage := some ("Vapi Error: " ++ jsOrOpt emsg ejson)
               status := "Error During Interview" }

/-- Run a sequence of events. -/
def run (s : State) (es : List Event) : State := es.foldl step s

/-- The speech/content events that can occur during an active session. -/
inductive Mid where
  | speechStart
  | speechEnd
  | volumeLevel (v : Int)
  | message (m : TMsg)

def Mid.toEvent : Mid → Event
  | Mid.speechStart => Event.speechStart
  | Mid.speechEnd => Event.speechEnd
  | Mid.volumeLevel v => Event.volumeLevel v
  | Mid.message m => Event.message m

/-- The messages captured during a session's speech/content events. -/
def sessionMsgs (mids : List Mid) : List TMsg :=
  mids.filterMap fun m => match m with
    | Mid.message msg => some msg
    | _ => none

/-- One completed session of this variant. -/
def sessionTrace (mids : List Mid) : List Event :=
  [Event.startRequested, Event.callStart] ++ mids.map Mid.toEvent ++ [Event.callEnd]

/-- Any number of completed sessions back to back. -/
def sessionsTrace (ss : List (List Mid)) : List Event :=
  (ss.map sessionTrace).flatten

/-- The transcript (if any) that a session's own messages produce — the
data `scoreInterviewTranscript` sends for that session. -/
def sessionScore (mids : List Mid) : Option String :=
  let filtered := filteredTranscript (sessionMsgs mids)
  if filtered.isEmpty then none else some (joinLines filtered)

end BotB

/-! ## Reference definitions written from the claims (for comparison)

These two definitions follow the wording of claim C2 ("keeps exactly those
entries whose content is a non-empty text string") and its minimal
amendment; they are compared against the route's `transcriptMessages`. -/

/-- The extraction filter exactly as claim C2 states it: keep any fetched
entry whose content is a non-empty string — no condition on the entry's
`type` and no whitespace trimming. -/
def claimKeep (m : VMsg) : Bool := m.content.getD "" != ""

/-- The extraction exactly as claim C2 states it. -/
def claimTranscriptMessages (ms : List VMsg) : List String :=
  (ms.filter claimKeep).map msgLine

/-- The per-entry extraction as amended: an entry contributes a line exactly
when its `type` is `"transcript"` and its content is a string that is
non-empty and non-blank (has a non-whitespace character); the line tags the
entry `Candidate` when the sender field is `user` and `Interviewer`
otherwise. -/
def amendedLineOf (m : VMsg) : Option String :=
  match m.content with
  | some c =>
      if m.type == "transcript" && c != "" && jsTrim c != "" then
        some ((if m.sender == some "user" then "Candidate" else "Interviewer") ++ ": " ++ c)
      else none
  | none => none

/-! ## Helper lemmas -/

theorem isInfix_append_r {α : Type} {p a : List α} (b : List α) (h : p <:+: a) :
    p <:+: a ++ b := by
  obtain ⟨s, t, rfl⟩ := h
  exact ⟨s, t ++ b, by simp⟩

theorem isInfix_append_l {α : Type} {p b : List α} (a : List α) (h : p <:+: b) :
    p <:+: a ++ b := by
  obtain ⟨s, t, rfl⟩ := h
  exact ⟨a ++ s, t, by simp⟩

theorem isInfix_mid {α : Type} {p t : List α} (a b : List α) (h : p <:+: t) :
    p <:+: a ++ t ++ b :=
  isInfix_append_r b (isInfix_append_l a h)

/-- The message thrown on a non-success Vapi response contains the marker
text that the `catch` block tests for. -/
theorem strContains_fetch_marker (x : String) :
    strContains ("Failed to fetch call details from Vapi: " ++ x)
      "Failed to fetch call details from Vapi" = true := by
  have hsplit : ("Failed to fetch call details from Vapi: " : String)
      = "Failed to fetch call details from Vapi" ++ ": " := rfl
  rw [strContains, decide_eq_true_eq, hsplit]
  exact ⟨[], (": " ++ x).data, by simp [String.data_append]⟩

theorem data_scoringPrompt (t : String) :
    (scoringPrompt t).data = promptPre.data ++ (t.data ++ promptSuf.data) := by
  simp [scoringPrompt, String.data_append]

/-- Every element of `L` occurs contiguously in `joinLines L`. -/
theorem mem_data_isInfix_joinLines : ∀ (L : List String), ∀ l ∈ L, l.data <:+: (joinLines L).data := by
  intro L
  induction L with
  | nil => intro l hl; cases hl
  | cons x xs ih =>
    intro l hl
    cases xs with
    | nil =>
        rcases List.mem_singleton.mp hl with rfl
        exact ⟨[], [], by simp [joinLines]⟩
    | cons y ys =>
        rcases List.mem_cons.mp hl with rfl | h
        · refine ⟨[], "\n".data ++ (joinLines (y :: ys)).data, ?_⟩
          simp [joinLines, String.data_append]
        · have := ih l h
          have h2 : l.data <:+: (x ++ "\n").data ++ (joinLines (y :: ys)).data :=
            isInfix_append_l _ this
          simpa [joinLines, String.data_append] using h2

/-! ## Helper lemmas for the extraction (claim C2) -/

theorem transcriptMessages_filterMap (ms : List VMsg) :
    transcriptMessages ms = ms.filterMap amendedLineOf := by
  induction ms with
  | nil => rfl
  | cons m t ih =>
    have hm : (if keepMsg m then some (msgLine m) else none) = amendedLineOf m := by
      rcases m with ⟨ty, co, se⟩
      cases co
      · simp [keepMsg, jsTruthy, amendedLineOf]
      · rfl
    rw [List.filterMap_cons, ← hm]
    by_cases hk : keepMsg m
    · simp [transcriptMessages, List.filter_cons, hk] at ih ⊢
      exact ih
    · simp [transcriptMessages, List.filter_cons, hk] at ih ⊢
      exact ih

/-! ## Helper lemmas for the session traces (claim C1) -/

theorem botA_run_append (s : BotA.State) (l1 l2 : List BotA.Event) :
    BotA.run s (l1 ++ l2) = BotA.run (BotA.run s l1) l2 := by
  simp [BotA.run, List.foldl_append]

/-- Speech/volume events never touch the call-id ref or the scoring log. -/
theorem botA_mid_preserved : ∀ (mids : List BotA.Mid) (s : BotA.State),
    (BotA.run s (mids.map BotA.Mid.toEvent)).currentCallId = s.currentCallId
    ∧ (BotA.run s (mids.map BotA.Mid.toEvent)).scoringCalls = s.scoringCalls := by
  intro mids
  induction mids with
  | nil => intro s; exact ⟨rfl, rfl⟩
  | cons m t ih =>
    intro s
    have hstep : BotA.run s ((m :: t).map BotA.Mid.toEvent)
        = BotA.run (BotA.step s m.toEvent) (t.map BotA.Mid.toEvent) := rfl
    rw [hstep]
    have h2 := ih (BotA.step s m.toEvent)
    cases m with
    | speechStart => simpa [BotA.step, BotA.Mid.toEvent] using h2
    | speechEnd =>
        by_cases hc : s.isCallActive = true
        · simpa [BotA.step, BotA.Mid.toEvent, hc] using h2
        · simpa [BotA.step, BotA.Mid.toEvent, hc] using h2
    | volumeLevel v => simpa [BotA.step, BotA.Mid.toEvent] using h2

/-- One completed part_000 session appends exactly its own call id to the
scoring log. -/
theorem botA_session_scoring (cid : String) (mids : List BotA.Mid) (s : BotA.State) :
    (BotA.run s (BotA.sessionTrace cid mids)).scoringCalls = s.scoringCalls ++ [cid] := by
  have hsplit : BotA.sessionTrace cid mids
      = ([BotA.Event.startRequested, BotA.Event.callStart, BotA.Event.startResolved cid]
          ++ mids.map BotA.Mid.toEvent) ++ [BotA.Event.callEnd] := by
    simp [BotA.sessionTrace]
  rw [hsplit, botA_run_append, botA_run_append]
  have hmid := botA_mid_preserved mids
    (BotA.run s [BotA.Event.startRequested, BotA.Event.callStart, BotA.Event.startResolved cid])
  have hcid : (BotA.run s
      [BotA.Event.startRequested, BotA.Event.callStart, BotA.Event.startResolved cid]).currentCallId
      = some cid := rfl
  have hsc : (BotA.run s
      [BotA.Event.startRequested, BotA.Event.callStart, BotA.Event.startResolved cid]).scoringCalls
      = s.scoringCalls := rfl
  rw [hcid, hsc] at hmid
  show (BotA.step _ BotA.Event.callEnd).scoringCalls = s.scoringCalls ++ [cid]
  simp [BotA.step, BotA.handleCallEnd, hmid.1, hmid.2]

theorem botA_sessions_scoring : ∀ (ss : List (String × List BotA.Mid)) (s : BotA.State),
    (BotA.run s (BotA.sessionsTrace ss)).scoringCalls = s.scoringCalls ++ ss.map Prod.fst := by
  intro ss
  induction ss with
  | nil => intro s; simp [BotA.sessionsTrace, BotA.run]
  | cons p ps ih =>
    intro s
    have h1 : BotA.sessionsTrace (p :: ps)
        = BotA.sessionTrace p.1 p.2 ++ BotA.sessionsTrace ps := by
      simp [BotA.sessionsTrace]
    rw [h1, botA_run_append, ih, botA_session_scoring]
    simp

theorem botB_run_append (s : BotB.State) (l1 l2 : List BotB.Event) :
    BotB.run s (l1 ++ l2) = BotB.run (BotB.run s l1) l2 := by
  simp [BotB.run, List.foldl_append]

/-- Speech/volume/message events append exactly the delivered messages to
the buffer and never touch the proxy-call log. -/
theorem botB_mid_messages : ∀ (mids : List BotB.Mid) (s : BotB.State),
    (BotB.run s (mids.map BotB.Mid.toEvent)).messages = s.messages ++ BotB.sessionMsgs mids
    ∧ (BotB.run s (mids.map BotB.Mid.toEvent)).proxyCalls = s.proxyCalls := by
  intro mids
  induction mids with
  | nil => intro s; simp [BotB.run, BotB.sessionMsgs]
  | cons m t ih =>
    intro s
    have hstep : BotB.run s ((m :: t).map BotB.Mid.toEvent)
        = BotB.run (BotB.step s m.toEvent) (t.map BotB.Mid.toEvent) := rfl
    rw [hstep]
    have h2 := ih (BotB.step s m.toEvent)
    cases m with
    | speechStart => simpa [BotB.step, BotB.Mid.toEvent, BotB.sessionMsgs] using h2
    | speechEnd =>
        by_cases hc : s.isCallActive = true
        · simpa [BotB.step, BotB.Mid.toEvent, BotB.sessionMsgs, hc] using h2
        · simpa [BotB.step, BotB.Mid.toEvent, BotB.sessionMsgs, hc] using h2
    | volumeLevel v => simpa [BotB.step, BotB.Mid.toEvent, BotB.sessionMsgs] using h2
    | message msg =>
        have h3 : BotB.sessionMsgs (BotB.Mid.message msg :: t) = msg :: BotB.sessionMsgs t := by
          simp [BotB.sessionMsgs, List.filterMap_cons]
        rw [h3]
        constructor
        · rw [h2.1]
          simp [BotB.step, BotB.Mid.toEvent, BotB.handleMessage]
        · rw [h2.2]
          simp [BotB.step, BotB.Mid.toEvent, BotB.handleMessage]

/-- One completed part_001 session posts exactly the transcript built from
its own messages (nothing when that transcript is empty). -/
theorem botB_session_scoring (mids : List BotB.Mid) (s : BotB.State) :
    (BotB.run s (BotB.sessionTrace mids)).proxyCalls
      = s.proxyCalls ++ (BotB.sessionScore mids).toList := by
  have hsplit : BotB.sessionTrace mids
      = ([BotB.Event.startRequested, BotB.Event.callStart]
          ++ mids.map BotB.Mid.toEvent) ++ [BotB.Event.callEnd] := by
    simp [BotB.sessionTrace]
  rw [hsplit, botB_run_append, botB_run_append]
  have hmid := botB_mid_messages mids
    (BotB.run s [BotB.Event.startRequested, BotB.Event.callStart])
  have hmsg : (BotB.run s [BotB.Event.startRequested, BotB.Event.callStart]).messages = [] := rfl
  have hpc : (BotB.run s [BotB.Event.startRequested, BotB.Event.callStart]).proxyCalls
      = s.proxyCalls := rfl
  rw [hmsg, hpc] at hmid
  show (BotB.step _ BotB.Event.callEnd).proxyCalls = s.proxyCalls ++ (BotB.sessionScore mids).toList
  by_cases hf : (BotB.filteredTranscript (BotB.sessionMsgs mids)).isEmpty = true
  · simp [BotB.step, BotB.scoreInterviewTranscript, BotB.sessionScore, hmid.1, hmid.2, hf]
  · simp [BotB.step, BotB.scoreInterviewTranscript, BotB.sessionScore, hmid.1, hmid.2, hf]

theorem botB_sessions_scoring : ∀ (ss : List (List BotB.Mid)) (s : BotB.State),
    (BotB.run s (BotB.sessionsTrace ss)).proxyCalls
      = s.proxyCalls ++ ss.filterMap BotB.sessionScore := by
  intro ss
  induction ss with
  | nil => intro s; simp [BotB.sessionsTrace, BotB.run]
  | cons p ps ih =>
    intro s
    have h1 : BotB.sessionsTrace (p :: ps) = BotB.sessionTrace p ++ BotB.sessionsTrace ps := by
      simp [BotB.sessionsTrace]
    rw [h1, botB_run_append, ih, botB_session_scoring]
    cases h : BotB.sessionScore p <;> simp [List.filterMap_cons, h]

/-! ## Claims -/

/-- C1: For every run made of completed sessions — each a start (start
request, the external call-start event, and the start promise resolving
with the session's call id), any number of speech/content events, then the
session-end event — the controller invokes the scoring proxy at most once
per session (in these traces: exactly once for part_000, and once exactly
when the session produced a non-empty transcript for part_001), and the
call id (part_000) resp. the joined transcript (part_001) it passes is the
one captured from that very session, never a later session's: the i-th
recorded scoring invocation carries the i-th session's data. -/
theorem c1_scoring_per_session (ssA : List (String × List BotA.Mid)) (ssB : List (List BotB.Mid)) :
    (BotA.run BotA.init (BotA.sessionsTrace ssA)).scoringCalls = ssA.map Prod.fst
    ∧ (BotB.run BotB.init (BotB.sessionsTrace ssB)).proxyCalls = ssB.filterMap BotB.sessionScore := by
  constructor
  · simpa using botA_sessions_scoring ssA BotA.init
  · simpa using botB_sessions_scoring ssB BotB.init

/-- C2 counterexample: the claim says the proxy keeps exactly the entries
whose content is a non-empty text string; but a fetched entry of type
`"status-update"` with non-empty content `"hello"` is dropped by the code
(its filter also requires `type === "transcript"`), while the claim-stated
extraction keeps it. -/
theorem c2_counterexample :
    transcriptMessages [⟨"status-update", some "hello", some "user"⟩] = []
    ∧ claimTranscriptMessages [⟨"status-update", some "hello", some "user"⟩] = ["Candidate: hello"]
    ∧ transcriptMessages [⟨"status-update", some "hello", some "user"⟩]
        ≠ claimTranscriptMessages [⟨"status-update", some "hello", some "user"⟩] := by decide

/-- C2 (amended): for every list of fetched call messages, the scoring
proxy keeps exactly those entries of type `"transcript"` whose content is a
non-empty, non-blank text string, tags each as Candidate when the sender
field is `user` and Interviewer otherwise, and joins them in their original
order, one `"<Role>: <text>"` line per utterance, separated by newlines. -/
theorem c2_amended_extraction (ms : List VMsg) :
    transcriptMessages ms = ms.filterMap amendedLineOf
    ∧ fullTranscript ms = joinLines (ms.filterMap amendedLineOf) := by
  refine ⟨transcriptMessages_filterMap ms, ?_⟩
  rw [fullTranscript, transcriptMessages_filterMap]

/-- C3: whenever the extracted transcript is empty — a fetched call with
zero qualifying entries on the proxy side, or an empty client-side buffer
in the transcript-sending variant — scoring yields the defined
"no transcript available" success result: the route answers
`200 { score: ... }` without calling the completion API, and the part_001
client short-circuits locally without POSTing to the proxy. -/
theorem c3_empty_transcript_is_success (body : ReqBody) (msgs : List VMsg)
    (comp : CompletionOutcome) (s : BotB.State)
    (hid : jsTruthy body.callId = true)
    (hmsgs : transcriptMessages msgs = [])
    (hbuf : BotB.filteredTranscript s.messages = []) :
    POST body true (FetchOutcome.ok msgs) comp
      = ⟨ScoreResult.ok "No valid transcript available from Vapi for scoring.", true, none⟩
    ∧ (BotB.scoreInterviewTranscript s).proxyCalls = s.proxyCalls
    ∧ (BotB.scoreInterviewTranscript s).interviewScore
        = some "No valid transcript to score. (Possible short call or no speech detected.)"
    ∧ (BotB.scoreInterviewTranscript s).isScoring = false := by
  refine ⟨?_, ?_, ?_, ?_⟩
  · simp [POST, runPOST, hid, fullTranscript, hmsgs, joinLines]
  all_goals simp [BotB.scoreInterviewTranscript, hbuf]

/-- C3 witness: a call with an empty `messages` array and the initial
client state both hit the "no transcript available" outcome. -/
theorem c3_witness :
    (jsTruthy ((⟨some "x", none⟩ : ReqBody)).callId = true
      ∧ transcriptMessages [] = []
      ∧ BotB.filteredTranscript BotB.init.messages = [])
    ∧ POST ⟨some "x", none⟩ true (FetchOutcome.ok []) (CompletionOutcome.ok none)
        = ⟨ScoreResult.ok "No valid transcript available from Vapi for scoring.", true, none⟩
    ∧ (BotB.scoreInterviewTranscript BotB.init).proxyCalls = BotB.init.proxyCalls
    ∧ (BotB.scoreInterviewTranscript BotB.init).interviewScore
        = some "No valid transcript to score. (Possible short call or no speech detected.)"
    ∧ (BotB.scoreInterviewTranscript BotB.init).isScoring = false :=
  ⟨⟨by decide, by decide, by decide⟩,
    c3_empty_transcript_is_success ⟨some "x", none⟩ [] (CompletionOutcome.ok none) BotB.init
      (by decide) (by decide) (by decide)⟩

/-- C4: for every request whose call id is supplied and every non-success
response of the external call-data API, the route fails with HTTP 500, the
error body embeds the upstream message (falling back to the upstream
status text), and the completion API is never called. -/
theorem c4_upstream_fetch_error (body : ReqBody) (status : Nat) (statusText : String)
    (errMessage : Option String) (comp : CompletionOutcome)
    (hid : jsTruthy body.callId = true) :
    POST body true (FetchOutcome.notOk status statusText errMessage) comp
      = ⟨ScoreResult.err 500
           ("Failed to fetch call details from Vapi: " ++ jsOrOpt errMessage statusText),
         true, none⟩ := by
  simp [POST, runPOST, hid, catchMsg, strContains_fetch_marker]

/-- C4 witness: a 404 from the call-data API with message "no call". -/
theorem c4_witness :
    jsTruthy ((⟨some "missing", none⟩ : ReqBody)).callId = true
    ∧ POST ⟨some "missing", none⟩ true (FetchOutcome.notOk 404 "Not Found" (some "no call"))
        (CompletionOutcome.ok none)
      = ⟨ScoreResult.err 500 ("Failed to fetch call details from Vapi: "
          ++ jsOrOpt (some "no call") "Not Found"), true, none⟩ :=
  ⟨by decide, c4_upstream_fetch_error ⟨some "missing", none⟩ 404 "Not Found" (some "no call")
      (CompletionOutcome.ok none) (by decide)⟩

/-- C5 counterexample: the claim says a completion response with no content
makes scoreInterview fail with an error result; but on a completion
response with absent content the route returns a success
(`200 { score: "Could not generate score." }`), not an error. -/
theorem c5_counterexample :
    (POST ⟨some "c1", none⟩ true
        (FetchOutcome.ok [⟨"transcript", some "Hello", some "user"⟩])
        (CompletionOutcome.ok none)).result
      = ScoreResult.ok "Could not generate score." := by decide

/-- C5 (amended): if the completion call errors, the route fails with an
HTTP 500 error result carrying the caught message; if the call succeeds,
the route returns a success — the model's text content verbatim with no
post-processing when that content is a non-empty string, and the
placeholder text "Could not generate score." when the content is absent or
empty. -/
theorem c5_amended_model_response (body : ReqBody) (msgs : List VMsg)
    (hid : jsTruthy body.callId = true) (ht : fullTranscript msgs ≠ "") :
    (∀ m, POST body true (FetchOutcome.ok msgs) (CompletionOutcome.fail m)
        = ⟨ScoreResult.err 500 (catchMsg m), true, some (scoringPrompt (fullTranscript msgs))⟩)
    ∧ (∀ s, s ≠ "" → POST body true (FetchOutcome.ok msgs) (CompletionOutcome.ok (some s))
        = ⟨ScoreResult.ok s, true, some (scoringPrompt (fullTranscript msgs))⟩)
    ∧ POST body true (FetchOutcome.ok msgs) (CompletionOutcome.ok none)
        = ⟨ScoreResult.ok "Could not generate score.", true,
            some (scoringPrompt (fullTranscript msgs))⟩
    ∧ POST body true (FetchOutcome.ok msgs) (CompletionOutcome.ok (some ""))
        = ⟨ScoreResult.ok "Could not generate score.", true,
            some (scoringPrompt (fullTranscript msgs))⟩ := by
  refine ⟨fun m => ?_, fun s hs => ?_, ?_, ?_⟩ <;>
    simp [POST, runPOST, hid, ht, jsOrOpt, jsOrStr, *]

/-- C5 witness: a one-line transcript and a completion responding
"Great answers." come back verbatim as the score. -/
theorem c5_witness :
    (jsTruthy ((⟨some "c1", none⟩ : ReqBody)).callId = true
      ∧ fullTranscript [⟨"transcript", some "Hello", some "user"⟩] ≠ ""
      ∧ ("Great answers." : String) ≠ "")
    ∧ POST ⟨some "c1", none⟩ true
        (FetchOutcome.ok [⟨"transcript", some "Hello", some "user"⟩])
        (CompletionOutcome.ok (some "Great answers."))
      = ⟨ScoreResult.ok "Great answers.", true,
          some (scoringPrompt (fullTranscript [⟨"transcript", some "Hello", some "user"⟩]))⟩ :=
  ⟨⟨by decide, by decide, by decide⟩,
    (c5_amended_model_response ⟨some "c1", none⟩ [⟨"transcript", some "Hello", some "user"⟩]
        (by decide) (by decide)).2.1 "Great answers." (by decide)⟩

set_option maxRecDepth 10000 in
/-- C6: for every non-empty joined transcript, the evaluation prompt is a
fixed template — a constant prefix, the transcript, a constant suffix — so
it contains every transcript line verbatim and in order, and it contains
the labels of both scoring dimensions (Accuracy and Confidentiality), a
1-10 scale instruction for each, and an overall-feedback instruction. -/
theorem c6_prompt_template (lines : List String) (h : joinLines lines ≠ "") :
    scoringPrompt (joinLines lines) = promptPre ++ joinLines lines ++ promptSuf
    ∧ (∀ l ∈ lines, l.data <:+: (scoringPrompt (joinLines lines)).data)
    ∧ "**Accuracy:**".data <:+: (scoringPrompt (joinLines lines)).data
    ∧ "**Confidentiality:**".data <:+: (scoringPrompt (joinLines lines)).data
    ∧ "score from 1 to 10".data <:+: (scoringPrompt (joinLines lines)).data
    ∧ "Accuracy Score (1-10)".data <:+: (scoringPrompt (joinLines lines)).data
    ∧ "Confidentiality Score (1-10)".data <:+: (scoringPrompt (joinLines lines)).data
    ∧ "Overall Feedback:".data <:+: (scoringPrompt (joinLines lines)).data := by
  have hd : (scoringPrompt (joinLines lines)).data
      = promptPre.data ++ (joinLines lines).data ++ promptSuf.data := by
    simp [scoringPrompt, String.data_append]
  refine ⟨rfl, ?_, ?_, ?_, ?_, ?_, ?_, ?_⟩
  · intro l hl
    rw [hd]
    exact isInfix_mid _ _ (mem_data_isInfix_joinLines lines l hl)
  all_goals rw [hd]
  · exact isInfix_append_r _ (isInfix_append_r _ (by decide))
  · exact isInfix_append_r _ (isInfix_append_r _ (by decide))
  · exact isInfix_append_r _ (isInfix_append_r _ (by decide))
  · exact isInfix_append_l _ (by decide)
  · exact isInfix_append_l _ (by decide)
  · exact isInfix_append_l _ (by decide)

/-- C6 witness: the two-line transcript of the spec's example appears
verbatim and in order in the constructed prompt, together with both
dimension labels. -/
theorem c6_witness :
    joinLines ["Interviewer: Tell me about yourself", "Candidate: I am an engineer"] ≠ ""
    ∧ scoringPrompt (joinLines ["Interviewer: Tell me about yourself", "Candidate: I am an engineer"])
        = promptPre
          ++ joinLines ["Interviewer: Tell me about yourself", "Candidate: I am an engineer"]
          ++ promptSuf
    ∧ "Interviewer: Tell me about yourself".data
        <:+: (scoringPrompt (joinLines
          ["Interviewer: Tell me about yourself", "Candidate: I am an engineer"])).data
    ∧ "Candidate: I am an engineer".data
        <:+: (scoringPrompt (joinLines
          ["Interviewer: Tell me about yourself", "Candidate: I am an engineer"])).data
    ∧ "**Accuracy:**".data
        <:+: (scoringPrompt (joinLines
          ["Interviewer: Tell me about yourself", "Candidate: I am an engineer"])).data
    ∧ "**Confidentiality:**".data
        <:+: (scoringPrompt (joinLines
          ["Interviewer: Tell me about yourself", "Candidate: I am an engineer"])).data := by
  have h := c6_prompt_template
    ["Interviewer: Tell me about yourself", "Candidate: I am an engineer"] (by decide)
  exact ⟨by decide, h.1, h.2.1 _ (by simp), h.2.1 _ (by simp), h.2.2.1, h.2.2.2.1⟩

/-- C7 counterexample: the claim says a request supplying both a session id
and a transcript fails with InvalidRequest (400) before any upstream call;
but the route ignores the transcript field entirely — with both fields
present it proceeds, issues the upstream fetch, and here even succeeds. -/
theorem c7_counterexample :
    POST ⟨some "abc", some "hello"⟩ true (FetchOutcome.ok []) (CompletionOutcome.ok none)
      = ⟨ScoreResult.ok "No valid transcript available from Vapi for scoring.", true, none⟩ := by
  decide

/-- C7 (amended): the route validates only the call id: a request whose
`callId` is missing or empty fails with the 400 "Call ID is required"
error before any upstream call (no fetch, no completion call), and the
`transcript` field never influences the outcome. -/
theorem c7_amended_validation (cid t t2 : Option String)
    (secretSet : Bool) (fetch : FetchOutcome) (comp : CompletionOutcome) :
    POST ⟨none, t⟩ secretSet fetch comp
      = ⟨ScoreResult.err 400 "Call ID is required", false, none⟩
    ∧ POST ⟨some "", t⟩ secretSet fetch comp
      = ⟨ScoreResult.err 400 "Call ID is required", false, none⟩
    ∧ POST ⟨cid, t⟩ secretSet fetch comp = POST ⟨cid, t2⟩ secretSet fetch comp := by
  refine ⟨?_, ?_, rfl⟩ <;> simp [POST, runPOST, jsTruthy]

/-- C8: the mute toggle reads the current mute state from the external
session handle before flipping it (the argument of the issued `setMuted`
call depends only on the handle's flag, not on the component's local
`isMuted` state), so toggling twice restores the external mute flag to its
original value and issues exactly two external `setMuted` calls in
sequence, first with the flipped flag and then with the original one. -/
theorem c8_mute_toggle (w : MuteWorld) :
    (handleToggleMute true (handleToggleMute true w)).vapiMuted = w.vapiMuted
    ∧ (handleToggleMute true (handleToggleMute true w)).isMuted = w.vapiMuted
    ∧ (handleToggleMute true (handleToggleMute true w)).setMutedCalls
        = w.setMutedCalls ++ [!w.vapiMuted, w.vapiMuted]
    ∧ (∀ b : Bool, (handleToggleMute true { w with isMuted := b }).setMutedCalls
        = w.setMutedCalls ++ [!w.vapiMuted]) := by
  refine ⟨?_, ?_, ?_, fun b => ?_⟩ <;> simp [handleToggleMute]

/-- C9: when a start request uses the inline configuration (empty assistant
id) and microphone permission is denied, `handleStartCall` aborts: it never
invokes the external `vapi.start` (no session is opened and the call-active
flag is untouched), clears the loading indicator, and lands in the errored
state (status "Permission Denied" with the error message surfaced). -/
theorem c9_mic_denied_aborts_start (s : BotA.State) (m : String) (r : BotA.StartResult) :
    (BotA.handleStartCall s true "" (some m) r).2 = false
    ∧ (BotA.handleStartCall s true "" (some m) r).1.isLoading = false
    ∧ (BotA.handleStartCall s true "" (some m) r).1.status = "Permission Denied"
    ∧ (BotA.handleStartCall s true "" (some m) r).1.errorMessage
        = some ("Microphone access needed to start interview: " ++ jsOrStr m "Permission denied.")
    ∧ (BotA.handleStartCall s true "" (some m) r).1.isCallActive = s.isCallActive := by
  refine ⟨?_, ?_, ?_, ?_, ?_⟩ <;> simp [BotA.handleStartCall]

/-- C10 counterexample: the claim says an error event leaves the session in
the ended (not active) state; but from a state with an active call the
error handler leaves `isCallActive` true — it never ends the session. -/
theorem c10_counterexample :
    ¬ ((BotA.step { BotA.init with isCallActive := true }
          (BotA.Event.errorEvt (some "boom") "null")).isCallActive = false) := by decide

/-- C10 (amended): from every controller state, an external error event
clears the loading indicator, surfaces the error message (the prefixed
message is stored and the status becomes "Error During Interview"), and
leaves the call-active flag unchanged — it does not itself end the
session.  This holds for both controller variants. -/
theorem c10_amended_error_event (sA : BotA.State) (sB : BotB.State)
    (emsg : Option String) (ejson : String) :
    ((BotA.step sA (BotA.Event.errorEvt emsg ejson)).isLoading = false
      ∧ (BotA.step sA (BotA.Event.errorEvt emsg ejson)).errorMessage
          = some ("Vapi Error: " ++ jsOrOpt emsg ejson)
      ∧ (BotA.step sA (BotA.Event.errorEvt emsg ejson)).status = "Error During Interview"
      ∧ (BotA.step sA (BotA.Event.errorEvt emsg ejson)).isCallActive = sA.isCallActive)
    ∧ ((BotB.step sB (BotB.Event.errorEvt emsg ejson)).isLoading = false
      ∧ (BotB.step sB (BotB.Event.errorEvt emsg ejson)).errorMessage
          = some ("Vapi Error: " ++ jsOrOpt emsg ejson)
      ∧ (BotB.step sB (BotB.Event.errorEvt emsg ejson)).status = "Error During Interview"
      ∧ (BotB.step sB (BotB.Event.errorEvt emsg ejson)).isCallActive = sB.isCallActive) :=
  ⟨⟨rfl, rfl, rfl, rfl⟩, ⟨rfl, rfl, rfl, rfl⟩⟩
